import Mathlib

/-!
Shallow embedding of the alert-condition resource of the
terraform-provider-newrelic repository
(`newrelic/resource_newrelic_alert_condition.go`), together with proofs
about its mapping and validation logic.

Modelling conventions:
* `schema.ResourceData` is modelled by the `ResourceDocument` structure whose
  fields mirror the declared schema.  Terraform's `GetOk` reports a field as
  present exactly when it differs from its Go zero value, so presence of a
  string field is `≠ ""`, of a list field `≠ []`.
* The remote `newrelic.AlertCondition` struct of the go-newrelic client is
  mirrored field by field.
* Strings that are parsed or produced character by character (the composite
  identifier token and the entity wire strings) are modelled as `List Char`.
* Go `float64` values (term thresholds) are modelled as `Rat`; the code only
  copies them, never computes with them.
* `fmt.Printf` followed by `os.Exit(1)` is modelled by the
  `Outcome.processExit` constructor; an error value handed back to the caller
  is `Outcome.err` (never produced by `buildAlertConditionStruct`).
* The package-level mutable flag `var isNRQL bool = false` is threaded
  explicitly: `buildAlertConditionStruct` takes the current flag and returns
  the updated flag as the second component of its result.
-/

/-- One element of the `term` block of the configuration document. -/
structure TermM where
  duration : Int
  operator : String
  priority : String
  threshold : Rat
  time_function : String
deriving DecidableEq, Repr

/-- One element of the `nrql` block of the configuration document. -/
structure NRQLM where
  query : String
  since_value : Int
deriving DecidableEq, Repr

/-- The configuration document (`schema.ResourceData`) restricted to the
fields declared by `resourceNewRelicAlertCondition`.  `id` is the composite
identifier string (`d.Id()`), modelled as a character list. -/
structure ResourceDocument where
  id : List Char
  policy_id : Int
  name : String
  type : String
  entities : List Int
  metric : String
  runbook_url : String
  condition_scope : String
  term : List TermM
  value_function : String
  nrql : List NRQLM
  user_defined_metric : String
  user_defined_value_function : String
deriving DecidableEq, Repr

/-- The remote `newrelic.AlertConditionTerm` struct. -/
structure AlertConditionTerm where
  Duration : Int
  Operator : String
  Priority : String
  Threshold : Rat
  TimeFunction : String
deriving DecidableEq, Repr

/-- The remote `newrelic.AlertConditionNRQL` struct. -/
structure AlertConditionNRQL where
  Query : String
  SinceValue : Int
deriving DecidableEq, Repr

/-- The remote `newrelic.AlertConditionUserDefined` struct. -/
structure AlertConditionUserDefined where
  Metric : String
  ValueFunction : String
deriving DecidableEq, Repr

/-- The remote `newrelic.AlertCondition` struct.  Entity ids travel in their
string wire form (`[]string` in Go), modelled as character lists.  The Go
field `Type` is rendered `Type_` because `Type` is reserved in Lean. -/
structure AlertCondition where
  ID : Int
  PolicyID : Int
  Type_ : String
  Name : String
  Enabled : Bool
  Entities : List (List Char)
  Metric : String
  RunbookURL : String
  Scope : String
  Terms : List AlertConditionTerm
  UserDefined : AlertConditionUserDefined
  ValueFunction : String
  NRQL : List AlertConditionNRQL
deriving DecidableEq, Repr

/-- Errors surfaced to the caller of the resource operations.
`errNotFound` is the distinguished `newrelic.ErrNotFound` of the remote
client; `remoteOther` is any other remote failure; `malformedID` is the
failure of the composite-identifier decoder; `numError` is a
`strconv.ParseInt` failure on an entity wire string. -/
inductive ProviderErr where
  | errNotFound
  | remoteOther (msg : String)
  | malformedID (msg : String)
  | numError (s : List Char)
deriving DecidableEq, Repr

/-- Possible outcomes of a resource operation: a normal result, an error
value returned to the caller, or an abrupt whole-process termination
(`os.Exit`) after printing `msg`. -/
inductive Outcome (α : Type) where
  | ok (a : α)
  | err (e : ProviderErr)
  | processExit (code : Int) (msg : String)
deriving DecidableEq, Repr

/-- True exactly on the `Outcome.ok` constructor. -/
def Outcome.isOk {α : Type} : Outcome α → Bool
  | .ok _ => true
  | _ => false

/-- True exactly on the `Outcome.err` constructor (an error value handed
back to the caller, as opposed to a process exit). -/
def Outcome.isErrReturn {α : Type} : Outcome α → Bool
  | .err _ => true
  | _ => false

/-! ### Decimal integer codec (`strconv.Itoa` / `strconv.ParseInt`)

`serializeIDs`/`parseIDs` live in `helpers.go`, which is not part of the
sources at hand; they and the primitive integer/string conversions they rely
on are modelled from the spec (see `serializeIDs` and `parseIDs` below).
`strconv` conversions are also used by the alert-condition source itself for
entity ids. -/

/-- The decimal digit character for `d` (digits ten and above cannot occur;
they are clamped to `'9'` so the function is total). -/
def digitChar (d : Nat) : Char :=
  if d = 0 then '0' else if d = 1 then '1' else if d = 2 then '2'
  else if d = 3 then '3' else if d = 4 then '4' else if d = 5 then '5'
  else if d = 6 then '6' else if d = 7 then '7' else if d = 8 then '8'
  else '9'

/-- Decimal rendering of a natural number, most significant digit first,
structurally recursive on a fuel argument so that it evaluates inside the
kernel; any `fuel ≥ n` produces the standard decimal rendering. -/
def natToDecCharsFuel : Nat → Nat → List Char
  | 0, n => [digitChar n]
  | fuel + 1, n =>
    if n < 10 then [digitChar n]
    else natToDecCharsFuel fuel (n / 10) ++ [digitChar (n % 10)]

/-- Decimal rendering of a natural number, most significant digit first
(`strconv.Itoa` on non-negative input). -/
def natToDecChars (n : Nat) : List Char :=
  natToDecCharsFuel n n

/-- Decimal rendering of an integer (`strconv.Itoa`). -/
def intToDecChars (n : Int) : List Char :=
  if n < 0 then '-' :: natToDecChars n.natAbs else natToDecChars n.toNat

/-- The numeric value of a decimal digit character, if it is one. -/
def decDigit (c : Char) : Option Nat :=
  if 48 ≤ c.toNat ∧ c.toNat ≤ 57 then some (c.toNat - 48) else none

/-- Accumulating decimal parser: consumes digit characters, failing on the
first non-digit. -/
def parseDecFrom (acc : Nat) : List Char → Option Nat
  | [] => some acc
  | c :: cs =>
    match decDigit c with
    | some d => parseDecFrom (acc * 10 + d) cs
    | none => none

/-- Parse a non-empty all-digit string as a natural number
(`strconv.ParseInt` on unsigned input; the empty string is rejected). -/
def parseDecNat : List Char → Option Nat
  | [] => none
  | l => parseDecFrom 0 l

/-- Parse an optionally `'-'`-signed decimal string as an integer
(`strconv.ParseInt`). -/
def parseDecInt (l : List Char) : Option Int :=
  if l.head? = some '-' then (parseDecNat l.tail).map (fun n => -(n : Int))
  else (parseDecNat l).map (fun n => (n : Int))

/-! ### Splitting and joining on `':'` (`strings.Split` / `strings.Join`) -/

/-- Split a character list on `':'`; always returns at least one part. -/
def splitOnColon : List Char → List (List Char)
  | [] => [[]]
  | c :: cs =>
    match splitOnColon cs with
    | [] => [[c]]
    | p :: ps => if c = ':' then [] :: p :: ps else (c :: p) :: ps

/-- Join character lists with `':'` between consecutive parts. -/
def joinColon : List (List Char) → List Char
  | [] => []
  | [x] => x
  | x :: xs => x ++ ':' :: joinColon xs

/-- Modelled from the spec: `serializeIDs` (in `helpers.go`, not among the
sources at hand) encodes an ordered sequence of integer ids as a single
opaque token, each id in decimal, parts joined by a separator. -/
def serializeIDs (ids : List Int) : List Char :=
  joinColon (ids.map intToDecChars)

/-- Parse every part of a split token as an integer, failing if any part is
not a valid integer. -/
def parseParts : List (List Char) → Option (List Int)
  | [] => some []
  | p :: ps =>
    match parseDecInt p, parseParts ps with
    | some i, some is => some (i :: is)
    | _, _ => none

/-- Modelled from the spec: `parseIDs` (in `helpers.go`, not among the
sources at hand) splits the composite token on the separator and fails with
a malformed-identifier error unless it obtains exactly `count` integer
parts. -/
def parseIDs (token : List Char) (count : Nat) : Except ProviderErr (List Int) :=
  let parts := splitOnColon token
  if parts.length ≠ count then
    Except.error (ProviderErr.malformedID "unexpected number of id parts")
  else
    match parseParts parts with
    | some ids => Except.ok ids
    | none => Except.error (ProviderErr.malformedID "id part is not an integer")

/-! ### Schema validators (`intInSlice`, `intInSliceDuration`) -/

/-- `intInSlice`: the generic membership validator used by the schema. -/
def intInSlice (valid : List Int) (v : Int) : Bool :=
  valid.contains v

/-- Allowed term durations when the process-wide `isNRQL` flag is set. -/
def nrqlDurations : List Int := [1, 2, 3, 4, 5, 10, 15, 30, 60, 120]

/-- Allowed term durations when the process-wide `isNRQL` flag is clear. -/
def metricDurations : List Int := [5, 10, 15, 30, 60, 120]

/-- `intInSliceDuration`: chooses the duration validator from the
process-wide `isNRQL` flag current at the moment the schema is constructed
(`resourceNewRelicAlertCondition` calls it once while declaring the `term`
schema). -/
def intInSliceDuration (isNRQL : Bool) : Int → Bool :=
  if isNRQL then intInSlice nrqlDurations else intInSlice metricDurations

/-- The initial value of the package-level flag: `var isNRQL bool = false`. -/
def initialIsNRQL : Bool := false

/-- Validation of all term durations of a document by the schema validator
constructed under flag value `flag`. -/
def validateTermDurations (flag : Bool) (d : ResourceDocument) : Bool :=
  d.term.all (fun t => intInSliceDuration flag t.duration)

/-! ### `buildAlertConditionStruct` -/

/-- Translation of a document term into the remote term struct (the loop at
the top of `buildAlertConditionStruct`). -/
def termToRemote (t : TermM) : AlertConditionTerm :=
  { Duration := t.duration
    Operator := t.operator
    Priority := t.priority
    Threshold := t.threshold
    TimeFunction := t.time_function }

/-- The `condition` struct literal assembled before the shape branch:
name, `Enabled = true`, the translated terms, policy id and scope; all
other fields at their Go zero values. -/
def baseCondition (d : ResourceDocument) : AlertCondition :=
  { ID := 0
    PolicyID := d.policy_id
    Type_ := ""
    Name := d.name
    Enabled := true
    Entities := []
    Metric := ""
    RunbookURL := ""
    Scope := d.condition_scope
    Terms := d.term.map termToRemote
    UserDefined := { Metric := "", ValueFunction := "" }
    ValueFunction := ""
    NRQL := [] }

/-- The shape branch of `buildAlertConditionStruct`: the NRQL branch checks
that none of `type`/`entities`/`metric` is present and then converts the
`nrql` block into a local list that the source never assigns to the
condition (`prop` is discarded); the metric branch requires `metric`,
`entities` and `type` in that order.  Each failed check prints a message and
exits the process. -/
def buildBranch (d : ResourceDocument) : Outcome AlertCondition :=
  if ¬ d.nrql.isEmpty then
    if d.type ≠ "" then
      Outcome.processExit 1 "No type entry for NRQL query"
    else if ¬ d.entities.isEmpty then
      Outcome.processExit 1 "No entities for NRQL query"
    else if d.metric ≠ "" then
      Outcome.processExit 1 "No metric for NRQL query"
    else
      -- `prop` is computed and then discarded, mirroring the source, where
      -- the local slice is never stored into the condition.
      let _prop := d.nrql.map (fun n => AlertConditionNRQL.mk n.query n.since_value)
      Outcome.ok (baseCondition d)
  else
    if d.metric ≠ "" then
      if ¬ d.entities.isEmpty then
        if d.type ≠ "" then
          Outcome.ok { baseCondition d with
            Metric := d.metric
            Entities := d.entities.map intToDecChars
            Type_ := d.type }
        else
          Outcome.processExit 1 "Must set type for metric-type conditions"
      else
        Outcome.processExit 1 "Must set entities for metric-type conditions"
    else
      Outcome.processExit 1 "Must set matric value for metric-type conditions"

/-- The trailing `runbook_url` assignment: copied only when present. -/
def applyRunbook (d : ResourceDocument) (c : AlertCondition) : AlertCondition :=
  if d.runbook_url ≠ "" then { c with RunbookURL := d.runbook_url } else c

/-- The trailing user-defined assignment: the UserDefined sub-structure is
set only when both `user_defined_metric` and `user_defined_value_function`
are present. -/
def applyUserDefined (d : ResourceDocument) (c : AlertCondition) : AlertCondition :=
  if d.user_defined_metric ≠ "" then
    if d.user_defined_value_function ≠ "" then
      { c with UserDefined :=
          { Metric := d.user_defined_metric
            ValueFunction := d.user_defined_value_function } }
    else c
  else c

/-- The two assignments performed after the shape branch. -/
def finishCondition (d : ResourceDocument) (c : AlertCondition) : AlertCondition :=
  applyUserDefined d (applyRunbook d c)

/-- `buildAlertConditionStruct`: takes the current value of the
process-wide `isNRQL` flag and the document, returns the build outcome and
the updated flag (the source sets the flag to true as a side effect when
the document carries an `nrql` block). -/
def buildAlertConditionStruct (flag : Bool) (d : ResourceDocument) :
    Outcome AlertCondition × Bool :=
  (match buildBranch d with
   | Outcome.ok c => Outcome.ok (finishCondition d c)
   | Outcome.err e => Outcome.err e
   | Outcome.processExit code msg => Outcome.processExit code msg,
   if d.nrql.isEmpty then flag else true)

/-! ### `readAlertConditionStruct` -/

/-- `strconv.ParseInt(entity, 10, 32)`: decimal parse with the 32-bit
range check. -/
def parseInt32 (l : List Char) : Option Int :=
  match parseDecInt l with
  | some v => if -(2 ^ 31) ≤ v ∧ v < 2 ^ 31 then some v else none
  | none => none

/-- The entity-conversion loop of `readAlertConditionStruct`: parses every
entity wire string, returning the first `strconv` failure. -/
def parseEntities : List (List Char) → Except ProviderErr (List Int)
  | [] => Except.ok []
  | e :: es =>
    match parseInt32 e with
    | none => Except.error (ProviderErr.numError e)
    | some v =>
      match parseEntities es with
      | Except.error err => Except.error err
      | Except.ok vs => Except.ok (v :: vs)

/-- `readAlertConditionStruct`: decodes the stored composite id, converts
the entity wire strings, and only then copies every mapped field of the
remote condition into the document.  Returns the updated document together
with the error, if any; on error the document is returned as it stood when
the error occurred. -/
def readAlertConditionStruct (condition : AlertCondition) (d : ResourceDocument) :
    ResourceDocument × Option ProviderErr :=
  match parseIDs d.id 2 with
  | Except.error e => (d, some e)
  | Except.ok ids =>
    match parseEntities condition.Entities with
    | Except.error e => (d, some e)
    | Except.ok entities =>
      ({ d with
          policy_id := ids.getD 0 0
          name := condition.Name
          type := condition.Type_
          metric := condition.Metric
          runbook_url := condition.RunbookURL
          condition_scope := condition.Scope
          user_defined_metric := condition.UserDefined.Metric
          user_defined_value_function := condition.UserDefined.ValueFunction
          value_function := condition.ValueFunction
          entities := entities
          term := condition.Terms.map (fun t =>
            { duration := t.Duration
              operator := t.Operator
              priority := t.Priority
              threshold := t.Threshold
              time_function := t.TimeFunction })
          nrql := condition.NRQL.map (fun n =>
            { query := n.Query, since_value := n.SinceValue }) },
       none)

/-! ### Lifecycle operations -/

/-- `d.SetId("")`: clearing the local identity. -/
def clearId (d : ResourceDocument) : ResourceDocument :=
  { d with id := [] }

/-- `resourceNewRelicAlertConditionRead`, with the remote client's
`GetAlertCondition` supplied as a function of `(policyID, id)`.  A
`ErrNotFound` from the client clears the local identity and succeeds; any
other client error is returned unmodified. -/
def resourceNewRelicAlertConditionRead
    (getCondition : Int → Int → Except ProviderErr AlertCondition)
    (d : ResourceDocument) : Except ProviderErr ResourceDocument :=
  match parseIDs d.id 2 with
  | Except.error e => Except.error e
  | Except.ok ids =>
    match getCondition (ids.getD 0 0) (ids.getD 1 0) with
    | Except.error e =>
      if e = ProviderErr.errNotFound then Except.ok (clearId d)
      else Except.error e
    | Except.ok condition =>
      match readAlertConditionStruct condition d with
      | (d2, none) => Except.ok d2
      | (_, some e) => Except.error e

/-- `resourceNewRelicAlertConditionUpdate`, with the remote client's
`UpdateAlertCondition` supplied as a function.  Any client error, the
not-found error included, is returned unmodified. -/
def resourceNewRelicAlertConditionUpdate (flag : Bool)
    (updateCondition : AlertCondition → Except ProviderErr AlertCondition)
    (d : ResourceDocument) : Outcome ResourceDocument × Bool :=
  match buildAlertConditionStruct flag d with
  | (Outcome.err e, flag2) => (Outcome.err e, flag2)
  | (Outcome.processExit code msg, flag2) => (Outcome.processExit code msg, flag2)
  | (Outcome.ok condition, flag2) =>
    match parseIDs d.id 2 with
    | Except.error e => (Outcome.err e, flag2)
    | Except.ok ids =>
      match updateCondition { condition with
          PolicyID := ids.getD 0 0
          ID := ids.getD 1 0 } with
      | Except.error e => (Outcome.err e, flag2)
      | Except.ok updated =>
        match readAlertConditionStruct updated d with
        | (d2, none) => (Outcome.ok d2, flag2)
        | (_, some e) => (Outcome.err e, flag2)

/-- `resourceNewRelicAlertConditionDelete`, with the remote client's
`DeleteAlertCondition` supplied as a function returning the error, if any.
Any client error, the not-found error included, is returned unmodified;
on success the local identity is cleared. -/
def resourceNewRelicAlertConditionDelete
    (deleteCondition : Int → Int → Option ProviderErr)
    (d : ResourceDocument) : Except ProviderErr ResourceDocument :=
  match parseIDs d.id 2 with
  | Except.error e => Except.error e
  | Except.ok ids =>
    match deleteCondition (ids.getD 0 0) (ids.getD 1 0) with
    | some e => Except.error e
    | none => Except.ok (clearId d)

/-! ### Outcome projections used by concrete evaluations -/

/-- The NRQL list of a successful build outcome. -/
def nrqlOfOutcome : Outcome AlertCondition → Option (List AlertConditionNRQL)
  | Outcome.ok c => some c.NRQL
  | _ => none

/-- The value function of a successful build outcome. -/
def vfOfOutcome : Outcome AlertCondition → Option String
  | Outcome.ok c => some c.ValueFunction
  | _ => none

/-- Overwriting the two user-defined fields of a document. -/
def setUserDefinedFields (d : ResourceDocument) (m v : String) : ResourceDocument :=
  { d with user_defined_metric := m, user_defined_value_function := v }

/-- A token splits into exactly two integer parts: it is two separator-free
pieces around a single `':'`, each parsing as an integer. -/
def SplitsIntoTwoIntParts (token : List Char) : Prop :=
  ∃ a b, token = a ++ ':' :: b ∧ (∀ ch ∈ a, ch ≠ ':') ∧ (∀ ch ∈ b, ch ≠ ':') ∧
    (∃ i, parseDecInt a = some i) ∧ (∃ j, parseDecInt b = some j)

/-! ### Concrete documents and conditions used in counterexamples and
witnesses -/

/-- An NRQL-shaped document: non-empty `nrql` block, none of
`type`/`entities`/`metric` set. -/
def docC1 : ResourceDocument :=
  { id := ['1', '2', '3', ':', '4', '5', '6']
    policy_id := 123
    name := "tf-test-nrql"
    type := ""
    entities := []
    metric := ""
    runbook_url := "https://foo.example.com"
    condition_scope := ""
    term := [{ duration := 5, operator := "below", priority := "critical",
               threshold := 1, time_function := "all" }]
    value_function := "single_value"
    nrql := [{ query := "SELECT count(*) from SyntheticCheck", since_value := 3 }]
    user_defined_metric := ""
    user_defined_value_function := "" }

/-- A metric-shaped remote condition whose `ValueFunction` is `"sum"`. -/
def condC2 : AlertCondition :=
  { ID := 456, PolicyID := 123, Type_ := "apm_app_metric", Name := "remote-name"
    Enabled := true, Entities := [['5', '7']], Metric := "apdex"
    RunbookURL := "https://bar.example.com", Scope := "application"
    Terms := [{ Duration := 10, Operator := "above", Priority := "warning",
                Threshold := 2, TimeFunction := "any" }]
    UserDefined := { Metric := "my_metric", ValueFunction := "average" }
    ValueFunction := "sum"
    NRQL := [] }

/-- A document holding the composite identity `123:456`, the target of
`readAlertConditionStruct` for `condC2`. -/
def docC2 : ResourceDocument :=
  { id := ['1', '2', '3', ':', '4', '5', '6']
    policy_id := 123
    name := ""
    type := ""
    entities := []
    metric := ""
    runbook_url := ""
    condition_scope := ""
    term := []
    value_function := ""
    nrql := []
    user_defined_metric := ""
    user_defined_value_function := "" }

/-- A document with both the Metric discriminant (`type`) and an `nrql`
block populated. -/
def docC3 : ResourceDocument :=
  { id := []
    policy_id := 7
    name := "conflicted"
    type := "apm_app_metric"
    entities := [12]
    metric := "apdex"
    runbook_url := ""
    condition_scope := ""
    term := [{ duration := 5, operator := "below", priority := "critical",
               threshold := 1, time_function := "all" }]
    value_function := ""
    nrql := [{ query := "SELECT count(*) from Transaction", since_value := 2 }]
    user_defined_metric := ""
    user_defined_value_function := "" }

/-- An NRQL-shaped document whose single term has `duration = 1`. -/
def docC6 : ResourceDocument :=
  { id := []
    policy_id := 9
    name := "nrql-short-duration"
    type := ""
    entities := []
    metric := ""
    runbook_url := ""
    condition_scope := ""
    term := [{ duration := 1, operator := "below", priority := "critical",
               threshold := 1, time_function := "all" }]
    value_function := ""
    nrql := [{ query := "SELECT count(*) from SyntheticCheck", since_value := 3 }]
    user_defined_metric := ""
    user_defined_value_function := "" }

/-- A metric-shaped document accepted by the builder, holding the composite
identity `12:34`. -/
def docC7 : ResourceDocument :=
  { id := ['1', '2', ':', '3', '4']
    policy_id := 12
    name := "tf-test"
    type := "apm_app_metric"
    entities := [57]
    metric := "apdex"
    runbook_url := "https://foo.example.com"
    condition_scope := "application"
    term := [{ duration := 5, operator := "below", priority := "critical",
               threshold := 1, time_function := "all" }]
    value_function := ""
    nrql := []
    user_defined_metric := ""
    user_defined_value_function := "" }

/-- The condition built from `docC7`. -/
def condC7 : AlertCondition :=
  { ID := 0, PolicyID := 12, Type_ := "apm_app_metric", Name := "tf-test"
    Enabled := true, Entities := [['5', '7']], Metric := "apdex"
    RunbookURL := "https://foo.example.com", Scope := "application"
    Terms := [{ Duration := 5, Operator := "below", Priority := "critical",
                Threshold := 1, TimeFunction := "all" }]
    UserDefined := { Metric := "", ValueFunction := "" }
    ValueFunction := ""
    NRQL := [] }

/-- A metric-shaped document accepted by the builder (copy of `docC7` with
its own name, used by the C8 witness). -/
def docC8 : ResourceDocument :=
  { docC7 with name := "tf-test-c8" }

/-- The condition built from `docC8`. -/
def condC8 : AlertCondition :=
  { condC7 with Name := "tf-test-c8" }

/-- A metric-shaped document carrying `user_defined_metric` but no
`user_defined_value_function`. -/
def docC9 : ResourceDocument :=
  { docC7 with name := "tf-test-c9", user_defined_metric := "my_metric" }

/-- The condition built from `docC9`: the asymmetric user-defined input is
dropped. -/
def condC9 : AlertCondition :=
  { condC7 with Name := "tf-test-c9" }

/-- A document whose stored identity does not decode into two integer
parts. -/
def docC10 : ResourceDocument :=
  { docC2 with id := ['o', 'o', 'p', 's'] }

/-- An arbitrary remote condition paired with `docC10`. -/
def condC10 : AlertCondition := condC2

/-! ### Lemmas about the decimal codec -/

theorem decDigit_digitChar (d : Nat) (h : d < 10) : decDigit (digitChar d) = some d := by
  interval_cases d <;> decide

theorem digitChar_ne_colon (d : Nat) : digitChar d ≠ ':' := by
  unfold digitChar
  split_ifs <;> decide

theorem digitChar_ne_minus (d : Nat) : digitChar d ≠ '-' := by
  unfold digitChar
  split_ifs <;> decide

theorem digitChar_ge_ten (n : Nat) (h : ¬ n < 10) : digitChar n = '9' := by
  unfold digitChar
  split_ifs <;> first | omega | rfl

theorem digitChar_canon (n : Nat) : ∃ d, d < 10 ∧ digitChar n = digitChar d := by
  by_cases h : n < 10
  · exact ⟨n, h, rfl⟩
  · exact ⟨9, by omega, by rw [digitChar_ge_ten n h]; rfl⟩

theorem mem_natToDecCharsFuel (fuel : Nat) :
    ∀ n, ∀ c ∈ natToDecCharsFuel fuel n, ∃ d, d < 10 ∧ c = digitChar d := by
  induction fuel with
  | zero =>
    intro n c hc
    simp only [natToDecCharsFuel, List.mem_singleton] at hc
    subst hc
    exact digitChar_canon n
  | succ fuel ih =>
    intro n c hc
    by_cases h : n < 10
    · rw [natToDecCharsFuel, if_pos h] at hc
      simp only [List.mem_singleton] at hc
      subst hc
      exact digitChar_canon n
    · rw [natToDecCharsFuel, if_neg h] at hc
      rcases List.mem_append.mp hc with h1 | h2
      · exact ih (n / 10) c h1
      · simp only [List.mem_singleton] at h2
        exact ⟨n % 10, Nat.mod_lt _ (by omega), h2⟩

theorem mem_natToDecChars (n : Nat) :
    ∀ c ∈ natToDecChars n, ∃ d, d < 10 ∧ c = digitChar d :=
  mem_natToDecCharsFuel n n

theorem natToDecChars_ne_nil (n : Nat) : natToDecChars n ≠ [] := by
  unfold natToDecChars
  cases n with
  | zero => simp [natToDecCharsFuel]
  | succ m =>
    rw [natToDecCharsFuel]
    split_ifs <;> simp

theorem parseDecFrom_append (xs ys : List Char) (acc : Nat) :
    parseDecFrom acc (xs ++ ys)
      = (parseDecFrom acc xs).bind (fun a => parseDecFrom a ys) := by
  induction xs generalizing acc with
  | nil => simp [parseDecFrom]
  | cons c cs ih =>
    cases h : decDigit c with
    | none => simp [parseDecFrom, h]
    | some d => simp [parseDecFrom, h, ih]

theorem parseDecFrom_natToDecCharsFuel (fuel : Nat) :
    ∀ n, n ≤ fuel ∨ n < 10 → parseDecFrom 0 (natToDecCharsFuel fuel n) = some n := by
  induction fuel with
  | zero =>
    intro n h
    have hlt : n < 10 := by omega
    simp [natToDecCharsFuel, parseDecFrom, decDigit_digitChar n hlt]
  | succ fuel ih =>
    intro n h
    by_cases hlt : n < 10
    · rw [natToDecCharsFuel, if_pos hlt]
      simp [parseDecFrom, decDigit_digitChar n hlt]
    · rw [natToDecCharsFuel, if_neg hlt, parseDecFrom_append,
        ih (n / 10) (Or.inl (by omega))]
      simp [parseDecFrom, decDigit_digitChar (n % 10) (Nat.mod_lt _ (by omega))]
      omega

theorem parseDecFrom_natToDecChars (n : Nat) :
    parseDecFrom 0 (natToDecChars n) = some n :=
  parseDecFrom_natToDecCharsFuel n n (Or.inl le_rfl)

theorem parseDecNat_natToDecChars (n : Nat) :
    parseDecNat (natToDecChars n) = some n := by
  cases hl : natToDecChars n with
  | nil => exact absurd hl (natToDecChars_ne_nil n)
  | cons c cs =>
    have : parseDecNat (c :: cs) = parseDecFrom 0 (c :: cs) := rfl
    rw [this, ← hl, parseDecFrom_natToDecChars]

theorem natToDecChars_head_not_minus (n : Nat) :
    ¬ (natToDecChars n).head? = some '-' := by
  cases hl : natToDecChars n with
  | nil => simp
  | cons c cs =>
    have hc : c ∈ natToDecChars n := by rw [hl]; exact List.mem_cons_self c cs
    obtain ⟨d, _, rfl⟩ := mem_natToDecChars n c hc
    simp only [List.head?_cons, Option.some.injEq]
    exact digitChar_ne_minus d

theorem parseDecInt_natToDecChars (n : Nat) :
    parseDecInt (natToDecChars n) = some (n : Int) := by
  rw [parseDecInt, if_neg (natToDecChars_head_not_minus n), parseDecNat_natToDecChars]
  rfl

theorem noColon_natToDecChars (n : Nat) :
    ∀ ch ∈ natToDecChars n, ch ≠ ':' := by
  intro ch hm
  obtain ⟨d, _, rfl⟩ := mem_natToDecChars n ch hm
  exact digitChar_ne_colon d

theorem intToDecChars_of_nonneg (n : Int) (h : 0 ≤ n) :
    intToDecChars n = natToDecChars n.toNat := by
  rw [intToDecChars, if_neg (by omega)]

theorem parseDecInt_intToDecChars (n : Int) (h : 0 ≤ n) :
    parseDecInt (intToDecChars n) = some n := by
  rw [intToDecChars_of_nonneg n h, parseDecInt_natToDecChars, Int.toNat_of_nonneg h]

/-! ### Lemmas about splitting and joining on the separator -/

theorem splitOnColon_ne_nil (l : List Char) : splitOnColon l ≠ [] := by
  cases l with
  | nil => simp [splitOnColon]
  | cons c cs =>
    cases h : splitOnColon cs with
    | nil => simp [splitOnColon, h]
    | cons p ps => by_cases hc : c = ':' <;> simp [splitOnColon, h, hc]

theorem splitOnColon_noColon (xs : List Char) (h : ∀ ch ∈ xs, ch ≠ ':') :
    splitOnColon xs = [xs] := by
  induction xs with
  | nil => rfl
  | cons c cs ih =>
    have hc : c ≠ ':' := h c (List.mem_cons_self c cs)
    have ihh := ih (fun ch hm => h ch (List.mem_cons_of_mem c hm))
    simp [splitOnColon, ihh, hc]

theorem splitOnColon_append (xs ys : List Char) (h : ∀ ch ∈ xs, ch ≠ ':') :
    splitOnColon (xs ++ ':' :: ys) = xs :: splitOnColon ys := by
  induction xs with
  | nil =>
    cases hy : splitOnColon ys with
    | nil => exact absurd hy (splitOnColon_ne_nil ys)
    | cons p ps => simp [splitOnColon, hy]
  | cons c cs ih =>
    have hc : c ≠ ':' := h c (List.mem_cons_self c cs)
    have ihh := ih (fun ch hm => h ch (List.mem_cons_of_mem c hm))
    simp [splitOnColon, ihh, hc]

theorem joinColon_nil_cons (p : List Char) (ps : List (List Char)) :
    joinColon ([] :: p :: ps) = ':' :: joinColon (p :: ps) := rfl

theorem joinColon_cons_cons (c : Char) (p : List Char) (ps : List (List Char)) :
    joinColon ((c :: p) :: ps) = c :: joinColon (p :: ps) := by
  cases ps <;> rfl

theorem joinColon_splitOnColon (l : List Char) : joinColon (splitOnColon l) = l := by
  induction l with
  | nil => rfl
  | cons c cs ih =>
    cases h : splitOnColon cs with
    | nil => exact absurd h (splitOnColon_ne_nil cs)
    | cons p ps =>
      by_cases hc : c = ':'
      · subst hc
        have hs : splitOnColon (':' :: cs) = [] :: p :: ps := by
          simp [splitOnColon, h]
        rw [hs, joinColon_nil_cons, ← h, ih]
      · have hs : splitOnColon (c :: cs) = (c :: p) :: ps := by
          simp [splitOnColon, h, hc]
        rw [hs, joinColon_cons_cons, ← h, ih]

theorem mem_splitOnColon_noColon (l : List Char) :
    ∀ p ∈ splitOnColon l, ∀ ch ∈ p, ch ≠ ':' := by
  induction l with
  | nil =>
    intro p hp ch hch
    simp only [splitOnColon, List.mem_singleton] at hp
    subst hp
    simp at hch
  | cons c cs ih =>
    intro p hp ch hch
    cases h : splitOnColon cs with
    | nil => exact absurd h (splitOnColon_ne_nil cs)
    | cons q qs =>
      rw [h] at ih
      by_cases hc : c = ':'
      · subst hc
        have hs : splitOnColon (':' :: cs) = [] :: q :: qs := by
          simp [splitOnColon, h]
        rw [hs] at hp
        rcases List.mem_cons.mp hp with h1 | h2
        · subst h1; simp at hch
        · exact ih p h2 ch hch
      · have hs : splitOnColon (c :: cs) = (c :: q) :: qs := by
          simp [splitOnColon, h, hc]
        rw [hs] at hp
        rcases List.mem_cons.mp hp with h1 | h2
        · subst h1
          rcases List.mem_cons.mp hch with h3 | h4
          · subst h3; exact hc
          · exact ih q (List.mem_cons_self q qs) ch h4
        · exact ih p (List.mem_cons_of_mem q h2) ch hch

theorem parseParts_length (ps : List (List Char)) (is : List Int)
    (h : parseParts ps = some is) : is.length = ps.length := by
  induction ps generalizing is with
  | nil =>
    simp only [parseParts, Option.some.injEq] at h
    subst h; rfl
  | cons p pss ih =>
    cases hp : parseDecInt p with
    | none => simp [parseParts, hp] at h
    | some i =>
      cases hq : parseParts pss with
      | none => simp [parseParts, hp, hq] at h
      | some is2 =>
        simp only [parseParts, hp, hq, Option.some.injEq] at h
        subst h
        simp [ih is2 hq]

theorem parseParts_pair (a b : List Char) (i j : Int) :
    parseParts [a, b] = some [i, j] ↔
      (parseDecInt a = some i ∧ parseDecInt b = some j) := by
  constructor
  · intro h
    cases hi : parseDecInt a <;> cases hj : parseDecInt b <;>
      simp [parseParts, hi, hj] at h ⊢
    exact ⟨h.1.symm ▸ rfl, h.2.symm ▸ rfl⟩
  · rintro ⟨hi, hj⟩
    simp [parseParts, hi, hj]

/-! ### Lemmas about the builder -/

theorem build_fst_eq (flag : Bool) (d : ResourceDocument) :
    (buildAlertConditionStruct flag d).1 =
      match buildBranch d with
      | Outcome.ok c0 => Outcome.ok (finishCondition d c0)
      | Outcome.err e => Outcome.err e
      | Outcome.processExit code msg => Outcome.processExit code msg := rfl

theorem build_ok_elim (flag : Bool) (d : ResourceDocument) (c : AlertCondition)
    (h : (buildAlertConditionStruct flag d).1 = Outcome.ok c) :
    ∃ c0, buildBranch d = Outcome.ok c0 ∧ c = finishCondition d c0 := by
  rw [build_fst_eq] at h
  cases hb : buildBranch d with
  | ok c0 =>
    rw [hb] at h
    simp only [Outcome.ok.injEq] at h
    exact ⟨c0, rfl, h.symm⟩
  | err e => rw [hb] at h; simp at h
  | processExit code msg => rw [hb] at h; simp at h

theorem finishCondition_fields (d : ResourceDocument) (c : AlertCondition) :
    (finishCondition d c).Name = c.Name ∧ (finishCondition d c).Enabled = c.Enabled ∧
    (finishCondition d c).PolicyID = c.PolicyID ∧ (finishCondition d c).Scope = c.Scope ∧
    (finishCondition d c).Terms = c.Terms ∧ (finishCondition d c).NRQL = c.NRQL ∧
    (finishCondition d c).ValueFunction = c.ValueFunction := by
  unfold finishCondition applyUserDefined applyRunbook
  split_ifs <;> simp

theorem finishCondition_UserDefined (d : ResourceDocument) (c : AlertCondition) :
    (finishCondition d c).UserDefined =
      if d.user_defined_metric ≠ "" ∧ d.user_defined_value_function ≠ "" then
        { Metric := d.user_defined_metric, ValueFunction := d.user_defined_value_function }
      else c.UserDefined := by
  unfold finishCondition applyUserDefined applyRunbook
  split_ifs <;> simp_all

theorem buildBranch_ok (d : ResourceDocument) (c0 : AlertCondition)
    (h : buildBranch d = Outcome.ok c0) :
    c0.Name = d.name ∧ c0.Enabled = true ∧ c0.PolicyID = d.policy_id ∧
    c0.Scope = d.condition_scope ∧ c0.Terms = d.term.map termToRemote ∧
    c0.UserDefined = { Metric := "", ValueFunction := "" } ∧
    c0.NRQL = [] ∧ c0.ValueFunction = "" := by
  unfold buildBranch at h
  split_ifs at h <;> simp at h <;> subst h <;> simp [baseCondition]

/-! ### Claim theorems -/

/-- Claim C1 (refuted by the code, which contradicts its own acceptance
test): for the NRQL-shaped document `docC1` the build succeeds, but the
returned condition's NRQL sub-structure is empty rather than carrying one
entry per `nrql` block element — the source converts the block into a local
slice it never assigns to the condition. -/
theorem build_drops_nrql_block :
    nrqlOfOutcome (buildAlertConditionStruct false docC1).1 = some [] ∧
    docC1.nrql = [{ query := "SELECT count(*) from SyntheticCheck", since_value := 3 }] := by
  decide

/-- Claim C2 (refuted by the code, which contradicts its own acceptance
test): reading the remote condition `condC2` into `docC2` succeeds, and
rebuilding from the resulting document also succeeds, but the rebuilt
condition's `ValueFunction` is `""` although `condC2.ValueFunction` is
`"sum"` — the builder never copies `value_function`, so the read/build
round trip is not lossless for the fields the mapping defines. -/
theorem roundtrip_loses_value_function :
    (readAlertConditionStruct condC2 docC2).2 = none ∧
    condC2.ValueFunction = "sum" ∧
    vfOfOutcome
      (buildAlertConditionStruct false (readAlertConditionStruct condC2 docC2).1).1
      = some "" := by
  decide

/-- Claim C3, counterexample to the claim as stated: on a document with
both the Metric fields and an `nrql` block populated, the builder does not
return a ShapeConflictError value to the caller — it prints a diagnostic
and terminates the whole process with exit code 1. -/
theorem build_shape_conflict_exits_process :
    (buildAlertConditionStruct false docC3).1
      = Outcome.processExit 1 "No type entry for NRQL query" ∧
    Outcome.isErrReturn (buildAlertConditionStruct false docC3).1 = false := by
  decide

/-- Claim C3, amended: for every document in which both the Metric fields
(type/entities/metric) and a non-empty `nrql` block are populated, and for
every document in which neither is populated, `buildAlertConditionStruct`
aborts before producing a remote request structure — but by printing a
message and terminating the process with exit code 1 (`os.Exit`), not by
returning a ShapeConflictError to the caller. -/
theorem build_shape_conflict_aborts_via_exit (flag : Bool) (d : ResourceDocument)
    (h : (¬ d.nrql.isEmpty ∧ d.type ≠ "" ∧ ¬ d.entities.isEmpty ∧ d.metric ≠ "") ∨
         (d.nrql.isEmpty ∧ d.type = "" ∧ d.entities.isEmpty ∧ d.metric = "")) :
    ∃ msg, (buildAlertConditionStruct flag d).1 = Outcome.processExit 1 msg := by
  rw [build_fst_eq]
  rcases h with ⟨hn, ht, _, _⟩ | ⟨hn, _, _, hm⟩
  · refine ⟨"No type entry for NRQL query", ?_⟩
    unfold buildBranch
    rw [if_pos hn, if_pos ht]
  · refine ⟨"Must set matric value for metric-type conditions", ?_⟩
    unfold buildBranch
    rw [if_neg (not_not_intro hn), if_neg (fun hh => hh hm)]

/-- Witness for the amended claim C3, at the concrete document `docC3`. -/
theorem build_shape_conflict_aborts_via_exit_witness :
    (¬ docC3.nrql.isEmpty ∧ docC3.type ≠ "" ∧ ¬ docC3.entities.isEmpty ∧
      docC3.metric ≠ "") ∧
    ∃ msg, (buildAlertConditionStruct false docC3).1 = Outcome.processExit 1 msg :=
  ⟨by decide, build_shape_conflict_aborts_via_exit false docC3 (Or.inl (by decide))⟩

/-- Claim C4: decoding the composite identifier token produced by encoding
the pair `(p, c)`, with expected part count 2, yields exactly the ordered
pair `(p, c)`, for all non-negative integers `p` and `c`. -/
theorem parseIDs_serializeIDs_roundtrip (p c : Int) (hp : 0 ≤ p) (hc : 0 ≤ c) :
    parseIDs (serializeIDs [p, c]) 2 = Except.ok [p, c] := by
  have hser : serializeIDs [p, c] = intToDecChars p ++ ':' :: intToDecChars c := rfl
  have hnp : ∀ ch ∈ intToDecChars p, ch ≠ ':' := by
    rw [intToDecChars_of_nonneg p hp]; exact noColon_natToDecChars _
  have hnc : ∀ ch ∈ intToDecChars c, ch ≠ ':' := by
    rw [intToDecChars_of_nonneg c hc]; exact noColon_natToDecChars _
  have hsplit : splitOnColon (serializeIDs [p, c])
      = [intToDecChars p, intToDecChars c] := by
    rw [hser, splitOnColon_append _ _ hnp, splitOnColon_noColon _ hnc]
  have hpp : parseParts [intToDecChars p, intToDecChars c] = some [p, c] :=
    (parseParts_pair _ _ _ _).mpr
      ⟨parseDecInt_intToDecChars p hp, parseDecInt_intToDecChars c hc⟩
  simp [parseIDs, hsplit, hpp]

/-- Witness for claim C4 at the concrete pair `(123, 456)`. -/
theorem parseIDs_serializeIDs_roundtrip_witness :
    (0 : Int) ≤ 123 ∧ (0 : Int) ≤ 456 ∧
    parseIDs (serializeIDs [123, 456]) 2 = Except.ok [123, 456] :=
  ⟨by decide, by decide, parseIDs_serializeIDs_roundtrip 123 456 (by decide) (by decide)⟩

/-- Claim C5: `parseIDs` with expected part count 2 succeeds exactly on the
tokens that split into exactly two integer parts, and fails with a
malformed-identifier error on every other token (fewer parts, more parts,
or a non-integer part). -/
theorem parseIDs_two_parts_characterization (token : List Char) :
    ((∃ i j, parseIDs token 2 = Except.ok [i, j]) ↔ SplitsIntoTwoIntParts token) ∧
    (¬ SplitsIntoTwoIntParts token →
      ∃ msg, parseIDs token 2 = Except.error (ProviderErr.malformedID msg)) := by
  constructor
  · constructor
    · rintro ⟨i, j, hok⟩
      by_cases hlen : (splitOnColon token).length = 2
      · obtain ⟨a, b, hab⟩ := List.length_eq_two.mp hlen
        cases hpp : parseParts (splitOnColon token) with
        | none => simp [parseIDs, hlen, hpp] at hok
        | some ids =>
          have hids : ids = [i, j] := by
            simp [parseIDs, hlen, hpp] at hok
            exact hok
          rw [hab, hids] at hpp
          obtain ⟨hi, hj⟩ := (parseParts_pair a b i j).mp hpp
          have hjoin := joinColon_splitOnColon token
          rw [hab] at hjoin
          refine ⟨a, b, hjoin.symm, ?_, ?_, ⟨i, hi⟩, ⟨j, hj⟩⟩
          · intro ch hch
            exact mem_splitOnColon_noColon token a (by rw [hab]; simp) ch hch
          · intro ch hch
            exact mem_splitOnColon_noColon token b (by rw [hab]; simp) ch hch
      · simp [parseIDs, hlen] at hok
    · rintro ⟨a, b, htok, ha, hb, ⟨i, hi⟩, ⟨j, hj⟩⟩
      have hsplit : splitOnColon token = [a, b] := by
        rw [htok, splitOnColon_append _ _ ha, splitOnColon_noColon _ hb]
      have hpp : parseParts [a, b] = some [i, j] := (parseParts_pair a b i j).mpr ⟨hi, hj⟩
      exact ⟨i, j, by simp [parseIDs, hsplit, hpp]⟩
  · intro hn
    by_cases hlen : (splitOnColon token).length = 2
    · cases hpp : parseParts (splitOnColon token) with
      | none =>
        exact ⟨"id part is not an integer", by simp [parseIDs, hlen, hpp]⟩
      | some ids =>
        exfalso
        apply hn
        obtain ⟨a, b, hab⟩ := List.length_eq_two.mp hlen
        have hlen2 : ids.length = 2 := by rw [parseParts_length _ _ hpp, hlen]
        obtain ⟨i, j, hij⟩ := List.length_eq_two.mp hlen2
        rw [hab, hij] at hpp
        obtain ⟨hi, hj⟩ := (parseParts_pair a b i j).mp hpp
        have hjoin := joinColon_splitOnColon token
        rw [hab] at hjoin
        refine ⟨a, b, hjoin.symm, ?_, ?_, ⟨i, hi⟩, ⟨j, hj⟩⟩
        · intro ch hch
          exact mem_splitOnColon_noColon token a (by rw [hab]; simp) ch hch
        · intro ch hch
          exact mem_splitOnColon_noColon token b (by rw [hab]; simp) ch hch
    · exact ⟨"unexpected number of id parts", by simp [parseIDs, hlen]⟩

/-- Witness for claim C5: the token `7:8` splits into two integer parts and
is decoded successfully. -/
theorem parseIDs_two_parts_characterization_witness :
    ∃ i j, parseIDs ['7', ':', '8'] 2 = Except.ok [i, j] :=
  (parseIDs_two_parts_characterization ['7', ':', '8']).1.mpr
    ⟨['7'], ['8'], rfl, by decide, by decide, ⟨7, by decide⟩, ⟨8, by decide⟩⟩

/-- Claim C6, counterexample to the claim as stated: the document `docC6`
is NRQL-shaped (non-empty `nrql` block) and its only term has
`duration = 1`, yet the duration validator constructed under the initial
process state (`isNRQL = false`, its value when the schema is declared)
rejects it — the rule is not decided by the condition's own shape. -/
theorem duration_validator_ignores_condition_shape :
    docC6.nrql.isEmpty = false ∧
    docC6.term.map (fun t => t.duration) = [1] ∧
    validateTermDurations initialIsNRQL docC6 = false := by
  decide

/-- Claim C6, amended: the duration rule is decided by the process-wide
`isNRQL` flag captured when `intInSliceDuration` is called during schema
construction, not by the condition's own shape.  With the flag at its
initial value `false`, `duration = 5` is accepted and `duration = 1`
rejected for every condition; with the flag `true`, `duration = 1` is
accepted for every condition; and the flag becomes `true` only as a side
effect of building some document with a non-empty `nrql` block. -/
theorem duration_validator_depends_on_global_flag :
    intInSliceDuration initialIsNRQL 5 = true ∧
    intInSliceDuration initialIsNRQL 1 = false ∧
    intInSliceDuration true 1 = true ∧
    (∀ flag : Bool, ∀ d : ResourceDocument, d.nrql.isEmpty = false →
      (buildAlertConditionStruct flag d).2 = true) := by
  refine ⟨by decide, by decide, by decide, ?_⟩
  intro flag d h
  unfold buildAlertConditionStruct
  simp [h]

/-- Witness for the amended claim C6: building the NRQL-shaped document
`docC6` sets the process-wide flag. -/
theorem duration_validator_depends_on_global_flag_witness :
    docC6.nrql.isEmpty = false ∧ (buildAlertConditionStruct false docC6).2 = true :=
  ⟨by decide, duration_validator_depends_on_global_flag.2.2.2 false docC6 (by decide)⟩

/-- Claim C7: once the stored identity decodes, a not-found from the remote
client makes Read clear the local identity and succeed, while Update and
Delete return every client error — the not-found error included —
unmodified to the caller, and Read returns every other error unmodified. -/
theorem lifecycle_remote_error_handling (d : ResourceDocument) (ids : List Int)
    (e : ProviderErr) (flag : Bool) (c0 : AlertCondition)
    (hid : parseIDs d.id 2 = Except.ok ids)
    (hb : (buildAlertConditionStruct flag d).1 = Outcome.ok c0) :
    (resourceNewRelicAlertConditionRead (fun _ _ => Except.error ProviderErr.errNotFound) d
       = Except.ok (clearId d)) ∧
    (e ≠ ProviderErr.errNotFound →
      resourceNewRelicAlertConditionRead (fun _ _ => Except.error e) d = Except.error e) ∧
    ((resourceNewRelicAlertConditionUpdate flag (fun _ => Except.error e) d).1
       = Outcome.err e) ∧
    (resourceNewRelicAlertConditionDelete (fun _ _ => some e) d = Except.error e) := by
  rcases hbd : buildAlertConditionStruct flag d with ⟨out, flag2⟩
  rw [hbd] at hb
  simp only at hb
  subst hb
  refine ⟨?_, ?_, ?_, ?_⟩
  · simp [resourceNewRelicAlertConditionRead, hid]
  · intro hne
    simp [resourceNewRelicAlertConditionRead, hid, hne]
  · simp [resourceNewRelicAlertConditionUpdate, hbd, hid]
  · simp [resourceNewRelicAlertConditionDelete, hid]

/-- Witness for claim C7 at the concrete document `docC7` and the concrete
remote error `remoteOther "boom"`. -/
theorem lifecycle_remote_error_handling_witness :
    parseIDs docC7.id 2 = Except.ok [12, 34] ∧
    (buildAlertConditionStruct false docC7).1 = Outcome.ok condC7 ∧
    resourceNewRelicAlertConditionRead (fun _ _ => Except.error ProviderErr.errNotFound) docC7
      = Except.ok (clearId docC7) ∧
    resourceNewRelicAlertConditionRead
        (fun _ _ => Except.error (ProviderErr.remoteOther "boom")) docC7
      = Except.error (ProviderErr.remoteOther "boom") ∧
    (resourceNewRelicAlertConditionUpdate false
        (fun _ => Except.error (ProviderErr.remoteOther "boom")) docC7).1
      = Outcome.err (ProviderErr.remoteOther "boom") ∧
    resourceNewRelicAlertConditionDelete
        (fun _ _ => some (ProviderErr.remoteOther "boom")) docC7
      = Except.error (ProviderErr.remoteOther "boom") := by
  have T := lifecycle_remote_error_handling docC7 [12, 34]
    (ProviderErr.remoteOther "boom") false condC7 rfl (by decide)
  exact ⟨rfl, by decide, T.1, T.2.1 (by decide), T.2.2.1, T.2.2.2⟩

/-- Claim C8: for every document the builder accepts, the returned
condition carries the document's name, policy id and condition scope, has
`Enabled = true`, and its `Terms` list is exactly the document's terms, in
order, each copying duration, operator, priority, threshold and time
function. -/
theorem build_copies_core_fields (flag : Bool) (d : ResourceDocument)
    (c : AlertCondition) (h : (buildAlertConditionStruct flag d).1 = Outcome.ok c) :
    c.Name = d.name ∧ c.PolicyID = d.policy_id ∧ c.Scope = d.condition_scope ∧
    c.Enabled = true ∧ c.Terms = d.term.map termToRemote := by
  obtain ⟨c0, hb, rfl⟩ := build_ok_elim flag d c h
  obtain ⟨f1, f2, f3, f4, f5, _, _⟩ := finishCondition_fields d c0
  obtain ⟨b1, b2, b3, b4, b5, _, _, _⟩ := buildBranch_ok d c0 hb
  exact ⟨f1.trans b1, f3.trans b3, f4.trans b4, f2.trans b2, f5.trans b5⟩

/-- Witness for claim C8 at the concrete document `docC8`. -/
theorem build_copies_core_fields_witness :
    (buildAlertConditionStruct false docC8).1 = Outcome.ok condC8 ∧
    (condC8.Name = docC8.name ∧ condC8.PolicyID = docC8.policy_id ∧
     condC8.Scope = docC8.condition_scope ∧ condC8.Enabled = true ∧
     condC8.Terms = docC8.term.map termToRemote) :=
  ⟨by decide, build_copies_core_fields false docC8 condC8 (by decide)⟩

/-- Claim C9: for every document the builder accepts, the UserDefined
sub-structure is set (to the document's pair) exactly when both
`user_defined_metric` and `user_defined_value_function` are present; when
they are not both present it is left at its zero value, and the presence or
absence of the user-defined fields never turns an accepted document into an
error. -/
theorem build_user_defined_both_or_neither (flag : Bool) (d : ResourceDocument)
    (c : AlertCondition) (h : (buildAlertConditionStruct flag d).1 = Outcome.ok c) :
    ((d.user_defined_metric ≠ "" ∧ d.user_defined_value_function ≠ "") →
      c.UserDefined = { Metric := d.user_defined_metric
                        ValueFunction := d.user_defined_value_function }) ∧
    (¬ (d.user_defined_metric ≠ "" ∧ d.user_defined_value_function ≠ "") →
      c.UserDefined = { Metric := "", ValueFunction := "" }) ∧
    (∀ m v, Outcome.isOk (buildAlertConditionStruct flag (setUserDefinedFields d m v)).1
      = true) := by
  obtain ⟨c0, hb, rfl⟩ := build_ok_elim flag d c h
  have hud := finishCondition_UserDefined d c0
  obtain ⟨_, _, _, _, _, b6, _, _⟩ := buildBranch_ok d c0 hb
  refine ⟨?_, ?_, ?_⟩
  · intro hboth
    rw [hud, if_pos hboth]
  · intro hnot
    rw [hud, if_neg hnot, b6]
  · intro m v
    rw [build_fst_eq]
    have hsame : buildBranch (setUserDefinedFields d m v) = buildBranch d := rfl
    rw [hsame, hb]
    rfl

/-- Witness for claim C9 at the concrete document `docC9`, which carries a
`user_defined_metric` but no `user_defined_value_function`: the build
succeeds and UserDefined stays at its zero value. -/
theorem build_user_defined_both_or_neither_witness :
    (buildAlertConditionStruct false docC9).1 = Outcome.ok condC9 ∧
    condC9.UserDefined = { Metric := "", ValueFunction := "" } :=
  ⟨by decide,
   (build_user_defined_both_or_neither false docC9 condC9 (by decide)).2.1 (by decide)⟩

/-- Claim C10: `readAlertConditionStruct` is atomic on error — when the
stored composite identifier fails to decode or some entity wire string is
not a valid integer, it returns the error with the document exactly as it
received it, no field set. -/
theorem readAlertConditionStruct_atomic_on_error (condition : AlertCondition)
    (d : ResourceDocument)
    (h : (readAlertConditionStruct condition d).2.isSome = true) :
    (readAlertConditionStruct condition d).1 = d := by
  cases hi : parseIDs d.id 2 with
  | error e => simp [readAlertConditionStruct, hi]
  | ok ids =>
    cases he : parseEntities condition.Entities with
    | error e => simp [readAlertConditionStruct, hi, he]
    | ok es =>
      rw [readAlertConditionStruct] at h
      rw [hi, he] at h
      simp at h

/-- Witness for claim C10: the document `docC10` stores a malformed
identity; reading `condC10` into it errors and leaves it unchanged. -/
theorem readAlertConditionStruct_atomic_on_error_witness :
    (readAlertConditionStruct condC10 docC10).2.isSome = true ∧
    (readAlertConditionStruct condC10 docC10).1 = docC10 :=
  ⟨by decide, readAlertConditionStruct_atomic_on_error condC10 docC10 (by decide)⟩
